import Mathlib

/-!
Verification development for the token-refresh-aware HTTP client of the
Acutusaimarket/API_Dash_Zcoded dashboard (file `src/lib/api/endpoints.ts`).

The core under scrutiny:
  * the Credential Store — six fixed `localStorage` keys,
  * `isTokenExpired` — the expiry evaluator,
  * `saveTokens` — atomic persist of a token pair,
  * `refreshTokenEndpoint` — body-mode refresh with a header-mode 401 fallback,
    clearing the store on failure,
  * `apiClient` — the authenticated dispatcher with proactive and reactive
    refresh and a single retry,
  * the per-endpoint response-envelope checks (`loginEndpoint`,
    `createApiKeyEndpoint`).

The embedding is shallow: `localStorage` becomes a record of six
`Option String` fields; network responses become explicit oracle values fed
to the functions; JavaScript-specific semantics that matter here (string
truthiness, `parseInt` returning NaN on unparseable input, comparisons with
NaN being false, case-insensitive `Headers`) are modelled explicitly.
-/

namespace Zcoded

/-- JavaScript truthiness of a `localStorage.getItem` result: `null` and the
empty string are falsy, every other string is truthy. -/
def jsTruthy : Option String → Bool
  | none => false
  | some s => !(s = "")

/-- JavaScript `parseInt(s)` (radix 10): skip leading whitespace, optional
sign, then read digits greedily; trailing garbage is ignored; if no digit is
read the result is NaN, modelled as `none`. -/
def jsParseInt (s : String) : Option Int :=
  let cs := s.data.dropWhile fun c => c = ' ' || c = '\t' || c = '\n' || c = '\r'
  let signAndRest : Int × List Char :=
    match cs with
    | '-' :: r => (-1, r)
    | '+' :: r => (1, r)
    | r => (1, r)
  let ds := signAndRest.2.takeWhile Char.isDigit
  if ds.isEmpty then none
  else some (signAndRest.1 * Int.ofNat (ds.foldl (fun a c => a * 10 + (c.toNat - 48)) 0))

/-- The Credential Store: the six fixed `localStorage` keys written by
`saveTokens` and removed by the clearing code. A `none` field is an absent
key (`getItem` returning `null`). -/
structure Store where
  access_token : Option String
  refresh_token : Option String
  token_type : Option String
  expires_in : Option String
  refresh_expires_in : Option String
  token_timestamp : Option String
deriving Repr, DecidableEq

/-- The six `localStorage.removeItem` calls of the refresh failure paths
(`endpoints.ts` lines 325-330 and 473-478): all six keys removed. -/
def clearTokens (_ : Store) : Store :=
  ⟨none, none, none, none, none, none⟩

/-- The token pair returned by the server (`RefreshTokenResponseData`);
numeric fields are JavaScript numbers, integral in practice. -/
structure TokenData where
  access_token : String
  refresh_token : String
  token_type : String
  expires_in : Int
  refresh_expires_in : Int
deriving Repr, DecidableEq

/-- Function `saveTokens` (`endpoints.ts` lines 183-195): persists all six fields,
stamping `token_timestamp` with `Date.now()` (here the explicit `now`). -/
def saveTokens (_ : Store) (d : TokenData) (now : Int) : Store :=
  { access_token := some d.access_token
    refresh_token := some d.refresh_token
    token_type := some d.token_type
    expires_in := some (toString d.expires_in)
    refresh_expires_in := some (toString d.refresh_expires_in)
    token_timestamp := some (toString now) }

/-- Function `isTokenExpired` (`endpoints.ts` lines 168-178). Reads only `expires_in`
and `token_timestamp`; missing/empty values short-circuit to `true`. Then
`parseInt(token_timestamp) + parseInt(expires_in) * 1000` is compared with
`Date.now() >= ...`; in JavaScript a NaN operand makes the comparison false,
so an unparseable stored value yields `false`. -/
def isTokenExpired (st : Store) (now : Int) : Bool :=
  let expiresIn := st.expires_in
  let tokenTimestamp := st.token_timestamp
  if !(jsTruthy expiresIn) || !(jsTruthy tokenTimestamp) then
    true
  else
    match jsParseInt (tokenTimestamp.getD ""), jsParseInt (expiresIn.getD "") with
    | some t, some e => decide (t + e * 1000 ≤ now)
    | _, _ => false

/-- The typed error class `ApiError` (`endpoints.ts` lines 354-365): a
message and an optional numeric status. The optional raw `data` payload is
not modelled — no claim depends on it. -/
structure ApiErr where
  message : String
  status : Option Nat
deriving Repr, DecidableEq

/-- The wire envelope `ApiResponse` (`endpoints.ts` lines 55-60); for the
refresh flow `data` is the token pair, possibly absent in a malformed reply. -/
structure Envelope where
  status : Int
  success : Bool
  message : String
  data : Option TokenData
deriving Repr, DecidableEq

/-- What `response.text()` plus `JSON.parse` can yield for one response. -/
inductive RespBody
  | empty
  | malformed
  | parsed (env : Envelope)
deriving Repr, DecidableEq

/-- Outcome of one `fetch` whose body the code parses: either a network
error (a `TypeError` mentioning fetch) or a status with a body. -/
inductive FetchResult
  | netErr
  | resp (status : Nat) (body : RespBody)
deriving Repr, DecidableEq

/-- Predicate `Response.ok`: status in the 2xx range. -/
def responseOk (status : Nat) : Bool :=
  decide (200 ≤ status) && decide (status < 300)

/-- The message of the wrapped network `TypeError` (repeated verbatim at each
fetch site of `endpoints.ts`). -/
def netErrMsg : String :=
  "Network error: Unable to connect to the server. Please check your internet connection and try again."

/-- JavaScript `a || b` on strings: the empty string falls through to `b`. -/
def jsOr (s fallback : String) : String :=
  if s = "" then fallback else s

/-- Models the fetch-plus-parse preamble repeated at every endpoint
(`endpoints.ts` e.g. lines 214-256): a network `TypeError` becomes an
`ApiError` with status sentinel 0; an empty body and a JSON syntax error
become `ApiError`s carrying the transport status; otherwise the parsed
envelope is returned with the transport status. -/
def readBody : FetchResult → Except ApiErr (Nat × Envelope)
  | .netErr => .error ⟨netErrMsg, some 0⟩
  | .resp status .empty => .error ⟨"Empty response from server", some status⟩
  | .resp status .malformed =>
      .error ⟨"Invalid response from server. Please try again later.", some status⟩
  | .resp status (.parsed env) => .ok (status, env)

/-- Message of the `TypeError` raised when the code dereferences a missing
`data` field (`saveTokens(data.data)` with `data.data` undefined); the exact
engine wording is irrelevant, the path (throw, clear, wrap) is what matters. -/
def undefinedDataMsg : String :=
  "cannot read properties of undefined"

/-- The body of the `try` block of `refreshTokenEndpoint` (`endpoints.ts`
lines 213-322): body-mode request, then on a 401 the header-mode fallback
(lines 258-313); a successful envelope is persisted via `saveTokens`. The
second component records whether the header-mode fetch was issued. -/
def refreshTryBody (st : Store) (now : Int) (bodyRes headerRes : FetchResult) :
    Except ApiErr (Envelope × Store) × Bool :=
  match readBody bodyRes with
  | .error e => (.error e, false)
  | .ok (status, data) =>
    if !(responseOk status) || !data.success then
      if status = 401 then
        match readBody headerRes with
        | .error e => (.error e, true)
        | .ok (hstatus, headerData) =>
          if !(responseOk hstatus) || !headerData.success then
            (.error ⟨jsOr headerData.message "Token refresh failed", some hstatus⟩, true)
          else
            match headerData.data with
            | some d => (.ok (headerData, saveTokens st d now), true)
            | none => (.error ⟨undefinedDataMsg, none⟩, true)
      else
        (.error ⟨jsOr data.message "Token refresh failed", some status⟩, false)
    else
      match data.data with
      | some d => (.ok (data, saveTokens st d now), false)
      | none => (.error ⟨undefinedDataMsg, none⟩, false)

/-- Result of one call to `refreshTokenEndpoint`: the returned/thrown value,
the store afterwards, and whether the header-mode fallback fetch happened. -/
structure RefreshResult where
  result : Except ApiErr Envelope
  store : Store
  headerAttempt : Bool
deriving Repr

/-- Function `refreshTokenEndpoint` (`endpoints.ts` lines 203-344). The
no-refresh-token guard (lines 209-211) throws BEFORE the `try` block, so its
error is not routed through the token-clearing `catch`; every error raised
inside the `try` reaches the `catch` (lines 323-343), which removes all six
stored fields and rethrows. -/
def refreshTokenEndpoint (st : Store) (now : Int) (bodyRes headerRes : FetchResult) :
    RefreshResult :=
  if !(jsTruthy st.refresh_token) then
    ⟨.error ⟨"No refresh token available. Please login again.", some 401⟩, st, false⟩
  else
    match refreshTryBody st now bodyRes headerRes with
    | (.ok (env, st1), ha) => ⟨.ok env, st1, ha⟩
    | (.error e, ha) => ⟨.error e, clearTokens st, ha⟩

/-! ## Headers and the dispatcher `apiClient` -/

/-- A header map, as built by the `Headers` web API: name lookup and
replacement are case-insensitive. -/
abbrev HeaderMap := List (String × String)

/-- ASCII lowercase of one character (header names are ASCII). -/
def lowerChar (c : Char) : Char :=
  if 'A' ≤ c && c ≤ 'Z' then Char.ofNat (c.toNat + 32) else c

/-- ASCII lowercase of a string, by structural recursion over its
characters, matching the normalisation `Headers` applies to names. -/
def lowerStr (s : String) : String :=
  ⟨s.data.map lowerChar⟩

/-- Case-insensitive name match, as `Headers` normalises names. -/
def headerMatches (n : String) (p : String × String) : Bool :=
  lowerStr p.1 = lowerStr n

/-- Operation `Headers.has`. -/
def headerHas : HeaderMap → String → Bool
  | [], _ => false
  | p :: t, n => headerMatches n p || headerHas t n

/-- Operation `Headers.get` (first matching entry). -/
def headerGet : HeaderMap → String → Option String
  | [], _ => none
  | p :: t, n => if headerMatches n p then some p.2 else headerGet t n

/-- Operation `Headers.set`: replace the value of a present name, else append. -/
def headerSet (hs : HeaderMap) (n v : String) : HeaderMap :=
  if headerHas hs n then
    hs.map fun p => if headerMatches n p then (p.1, v) else p
  else
    hs ++ [(n, v)]

/-- First-attempt header construction (`endpoints.ts` lines 393-401): start
from the headers supplied by the caller; if an access token is stored and the caller did
not supply `Authorization`, set it to the literal scheme `Bearer` followed by
the token (the stored `token_type` is NOT consulted); default the
`Content-Type` when absent. -/
def buildFirstHeaders (opts : HeaderMap) (st : Store) : HeaderMap :=
  let headers := opts
  let token := st.access_token
  let headers :=
    if jsTruthy token && !(headerHas headers "Authorization") then
      headerSet headers "Authorization" ("Bearer " ++ token.getD "")
    else headers
  if !(headerHas headers "Content-Type") then
    headerSet headers "Content-Type" "application/json"
  else headers

/-- Retry header construction (`endpoints.ts` lines 441-448): start again
from the headers supplied by the caller; if a (freshly refreshed) access token is stored,
set `Authorization` UNCONDITIONALLY — no `has` check, so a caller-supplied
`Authorization` is overwritten; `Content-Type` keeps the `has` guard. -/
def buildRetryHeaders (opts : HeaderMap) (st : Store) : HeaderMap :=
  let h := opts
  let newToken := st.access_token
  let h :=
    if jsTruthy newToken then
      headerSet h "Authorization" ("Bearer " ++ newToken.getD "")
    else h
  if !(headerHas h "Content-Type") then
    headerSet h "Content-Type" "application/json"
  else h

/-- A raw `Response` as `apiClient` returns it (the dispatcher never parses
bodies); `tag` stands for the identity of the response object, so
"returned as-is" is expressible. -/
structure Response where
  status : Nat
  tag : Nat
deriving Repr, DecidableEq

/-- Outcome of a `fetch` whose body `apiClient` does not read. -/
inductive FetchR
  | netErr
  | ok (r : Response)
deriving Repr, DecidableEq

/-- Input of one `apiClient` dispatch: the options (headers) of the caller, the
ambient mutable state (`localStorage` store, the module-level `isRefreshing`
flag with the outcome of the pending promise when it is set, the navigation
location), the clock, and the network oracles: the first fetch of the target
URL, the two fetches `refreshTokenEndpoint` may make, and the retry fetch. -/
structure DispatchInput where
  headers : HeaderMap
  store : Store
  isRefreshing : Bool
  pending : Except ApiErr Envelope
  location : String
  now : Int
  firstRes : FetchR
  refreshBodyRes : FetchResult
  refreshHeaderRes : FetchResult
  retryRes : FetchR

/-- Observable outcome of one `apiClient` dispatch: the returned/thrown
value plus the final ambient state and an event log (which fetches were
issued, with which headers, and how many times `refreshTokenEndpoint` ran). -/
structure DispatchResult where
  result : Except ApiErr Response
  store : Store
  isRefreshing : Bool
  location : String
  originalSent : Bool
  retrySent : Bool
  refreshCalls : Nat
  firstHeaders : Option HeaderMap
  retryHeaders : Option HeaderMap

/-- The redirect of the session-termination paths (`endpoints.ts` lines
386-388, 480-482, 488-490): navigate to `/login` unless already there. -/
def redirectToLogin (location : String) : String :=
  if location ≠ "/login" then "/login" else location

/-- The `await refreshPromise` step of the reactive branch (`endpoints.ts`
lines 430-436): if no refresh is in flight, start one (one more call to
`refreshTokenEndpoint`); otherwise await the outcome of the pending one, making
no new call and leaving the store to the task that owns the refresh. -/
def awaitCoordinatedRefresh (inp : DispatchInput) :
    Except ApiErr Envelope × Store × Nat :=
  if !inp.isRefreshing then
    let r := refreshTokenEndpoint inp.store inp.now inp.refreshBodyRes inp.refreshHeaderRes
    (r.result, r.store, 1)
  else
    (inp.pending, inp.store, 0)

/-- Steps 2-5 of `apiClient` (`endpoints.ts` lines 393-495): header
attachment, the first fetch, and the reactive-401 branch. `rc` counts the
`refreshTokenEndpoint` calls already made (by the proactive step). Note the
`catch (refreshError)` block (lines 468-485) surrounds BOTH the awaited
refresh and the retry fetch, so a network error on the retry also clears the
store and redirects. -/
def apiClientSend (inp : DispatchInput) (retryCount : Nat) (rc : Nat) : DispatchResult :=
  let headers := buildFirstHeaders inp.headers inp.store
  match inp.firstRes with
  | .netErr =>
      { result := .error ⟨netErrMsg, some 0⟩, store := inp.store
        isRefreshing := inp.isRefreshing, location := inp.location
        originalSent := true, retrySent := false, refreshCalls := rc
        firstHeaders := some headers, retryHeaders := none }
  | .ok response =>
    if response.status = 401 && retryCount < 1 then
      if jsTruthy inp.store.refresh_token then
        match awaitCoordinatedRefresh inp with
        | (.ok _, st1, k) =>
          let newHeaders := buildRetryHeaders inp.headers st1
          match inp.retryRes with
          | .ok r =>
              { result := .ok r, store := st1
                isRefreshing := false, location := inp.location
                originalSent := true, retrySent := true, refreshCalls := rc + k
                firstHeaders := some headers, retryHeaders := some newHeaders }
          | .netErr =>
              { result := .error ⟨netErrMsg, some 0⟩, store := clearTokens st1
                isRefreshing := false, location := redirectToLogin inp.location
                originalSent := true, retrySent := true, refreshCalls := rc + k
                firstHeaders := some headers, retryHeaders := some newHeaders }
        | (.error e, st1, k) =>
              { result := .error e, store := clearTokens st1
                isRefreshing := false, location := redirectToLogin inp.location
                originalSent := true, retrySent := false, refreshCalls := rc + k
                firstHeaders := some headers, retryHeaders := none }
      else
        { result := .error ⟨"Session expired. Please login again.", some 401⟩
          store := inp.store, isRefreshing := inp.isRefreshing
          location := redirectToLogin inp.location
          originalSent := true, retrySent := false, refreshCalls := rc
          firstHeaders := some headers, retryHeaders := none }
    else
      { result := .ok response, store := inp.store
        isRefreshing := inp.isRefreshing, location := inp.location
        originalSent := true, retrySent := false, refreshCalls := rc
        firstHeaders := some headers, retryHeaders := none }

/-- Function `apiClient` (`endpoints.ts` lines 374-507). Step 1 is the proactive
check (lines 380-391): when the stored token is expired, a refresh token
exists and `isRefreshing` is unset, run `refreshTokenEndpoint` — note this
path never sets `isRefreshing`; on failure redirect to `/login` and rethrow
without issuing the original request. Steps 2-5 are `apiClientSend`. The
surrounding catch rethrows `ApiError`s unchanged; every error produced here
already is one. -/
def apiClient (inp : DispatchInput) (retryCount : Nat) : DispatchResult :=
  if isTokenExpired inp.store inp.now && jsTruthy inp.store.refresh_token
      && !inp.isRefreshing then
    let r := refreshTokenEndpoint inp.store inp.now inp.refreshBodyRes inp.refreshHeaderRes
    match r.result with
    | .error e =>
        { result := .error e, store := r.store
          isRefreshing := inp.isRefreshing, location := redirectToLogin inp.location
          originalSent := false, retrySent := false, refreshCalls := 1
          firstHeaders := none, retryHeaders := none }
    | .ok _ => apiClientSend { inp with store := r.store } retryCount 1
  else
    apiClientSend inp retryCount 0

/-! ## Per-endpoint envelope checks -/

/-- The envelope check of `loginEndpoint` (`endpoints.ts` lines 120-135):
after a parsed body, a non-2xx transport status throws with the server
message (falling back to a status text), then `success:false` throws with
the server message (falling back to a fixed text); otherwise the envelope is
returned unchanged. The `saveTokens` side effect of the success path is not
part of this check. -/
def loginEnvelopeCheck (status : Nat) (env : Envelope) : Except ApiErr Envelope :=
  if !(responseOk status) then
    .error ⟨jsOr env.message ("Login failed with status " ++ toString status), some status⟩
  else if !env.success then
    .error ⟨jsOr env.message "Login failed", some status⟩
  else
    .ok env

/-- The envelope check of `createApiKeyEndpoint` (`endpoints.ts` lines
595-609): identical shape to the login check with its own fallback texts. -/
def createApiKeyEnvelopeCheck (status : Nat) (env : Envelope) : Except ApiErr Envelope :=
  if !(responseOk status) then
    .error ⟨jsOr env.message ("Failed to create API key (status " ++ toString status ++ ")"),
            some status⟩
  else if !env.success then
    .error ⟨jsOr env.message "Failed to create API key", some status⟩
  else
    .ok env

/-! ## Concurrent dispatches: event-loop interleaving of the proactive path

JavaScript is single-threaded: a task runs uninterrupted until its next
`await`. A dispatch through `apiClient` with an expired token runs the
proactive check (lines 380-383) synchronously — including the part of
`refreshTokenEndpoint` up to its `fetch`, which fires the network request —
and then suspends. The machine below runs N such dispatches under an
explicit schedule, against a network that answers the i-th refresh request
with a fresh token pair and every data request with 200. -/

/-- Network model for the concurrency scenario: the i-th refresh request is
answered with a fresh, distinct token pair. -/
def freshTokens (i : Nat) : TokenData :=
  ⟨"tok" ++ toString i, "rtok" ++ toString i, "Bearer", 3600, 86400⟩

/-- Control state of one dispatching task, between suspension points. -/
inductive TaskPC
  | start
  | awaitRefresh (callIdx : Nat)
  | awaitOrig (auth : Option String)
  | finished (auth : Option String)
deriving Repr, DecidableEq

/-- Shared state of the event loop: the credential store, the module-level
`isRefreshing` flag, the clock, the count of network calls made to the
refresh endpoint, and the control state of each task. -/
structure SchedState where
  store : Store
  isRefreshing : Bool
  now : Int
  refreshFetches : Nat
  tasks : List TaskPC
deriving Repr, DecidableEq

/-- Run task `i` from its current suspension point to the next one,
following `apiClient` (`endpoints.ts` lines 379-408) under the scenario
network. At `start` the task evaluates the proactive condition (line 381);
if it holds it calls `refreshTokenEndpoint`, whose body-mode `fetch` fires
(counted) before the task suspends — and nothing in this path sets
`isRefreshing`. At `awaitRefresh` the response (fresh tokens) arrives:
`saveTokens` runs, then the task attaches headers from the now-current store
and fires the original request. At `awaitOrig` a 200 arrives and the task
finishes, remembering the `Authorization` header it sent. -/
def stepTask (s : SchedState) (i : Nat) : SchedState :=
  match s.tasks.get? i with
  | none => s
  | some TaskPC.start =>
      if isTokenExpired s.store s.now && jsTruthy s.store.refresh_token
          && !s.isRefreshing then
        let n := s.refreshFetches + 1
        { s with refreshFetches := n, tasks := s.tasks.set i (.awaitRefresh n) }
      else
        let hdrs := buildFirstHeaders [] s.store
        { s with tasks := s.tasks.set i (.awaitOrig (headerGet hdrs "Authorization")) }
  | some (TaskPC.awaitRefresh callIdx) =>
      let st1 := saveTokens s.store (freshTokens callIdx) s.now
      let hdrs := buildFirstHeaders [] st1
      { s with store := st1
               tasks := s.tasks.set i (.awaitOrig (headerGet hdrs "Authorization")) }
  | some (TaskPC.awaitOrig a) =>
      { s with tasks := s.tasks.set i (.finished a) }
  | some (TaskPC.finished _) => s

/-- Run the event loop under an explicit schedule of task resumptions. -/
def runSched (s : SchedState) : List Nat → SchedState
  | [] => s
  | i :: rest => runSched (stepTask s i) rest

/-- Initial state for the concurrency scenario: a fully populated credential
record whose access token is expired (`token_timestamp` 0, TTL 3600 s, clock
at 10^7 ms), two dispatching tasks. -/
def c1Init : SchedState :=
  { store := { access_token := some "oldA", refresh_token := some "oldR"
               token_type := some "Bearer", expires_in := some "3600"
               refresh_expires_in := some "86400", token_timestamp := some "0" }
    isRefreshing := false
    now := 10000000
    refreshFetches := 0
    tasks := [.start, .start] }

/-! ## Helper lemmas -/

theorem headerGet_map_set (hs : HeaderMap) (n v : String) (h : headerHas hs n = true) :
    headerGet (hs.map fun p => if headerMatches n p then (p.1, v) else p) n = some v := by
  induction hs with
  | nil => simp [headerHas] at h
  | cons p t ih =>
    by_cases hp : headerMatches n p = true
    · have hp1 : headerMatches n (p.1, v) = true := hp
      simp [headerGet, hp, hp1]
    · have ht : headerHas t n = true := by
        simp [headerHas, hp] at h
        exact h
      simp [headerGet, hp, ih ht]

theorem headerGet_append_single (hs : HeaderMap) (n v : String) (h : headerHas hs n = false) :
    headerGet (hs ++ [(n, v)]) n = some v := by
  induction hs with
  | nil => simp [headerGet, headerMatches]
  | cons p t ih =>
    have hp : headerMatches n p = false ∧ headerHas t n = false := by
      simpa [headerHas] using h
    simp [headerGet, hp.1, ih hp.2]

theorem headerGet_headerSet_self (hs : HeaderMap) (n v : String) :
    headerGet (headerSet hs n v) n = some v := by
  by_cases h : headerHas hs n = true
  · simp [headerSet, h, headerGet_map_set hs n v h]
  · have h2 : headerHas hs n = false := by simpa using h
    simp [headerSet, h2, headerGet_append_single hs n v h2]

theorem headerGet_map_other (hs : HeaderMap) (n m v : String)
    (hnm : ¬ lowerStr n = lowerStr m) :
    headerGet (hs.map fun p => if headerMatches m p then (p.1, v) else p) n
      = headerGet hs n := by
  induction hs with
  | nil => rfl
  | cons p t ih =>
    by_cases hp : headerMatches m p = true
    · have hpl : lowerStr p.1 = lowerStr m := by simpa [headerMatches] using hp
      have hn : headerMatches n p = false := by
        simp [headerMatches, hpl]
        exact fun hh => hnm hh.symm
      have hn1 : headerMatches n (p.1, v) = false := hn
      simp [headerGet, hp, hn, hn1, ih]
    · simp [headerGet, hp, ih]

theorem headerGet_append_other (hs : HeaderMap) (n m v : String)
    (hnm : ¬ lowerStr n = lowerStr m) :
    headerGet (hs ++ [(m, v)]) n = headerGet hs n := by
  induction hs with
  | nil =>
    simp [headerGet, headerMatches]
    exact fun hh => hnm hh.symm
  | cons p t ih =>
    by_cases hp : headerMatches n p = true
    · simp [headerGet, hp]
    · simp [headerGet, hp, ih]

theorem headerGet_headerSet_other (hs : HeaderMap) (n m v : String)
    (hnm : ¬ lowerStr n = lowerStr m) :
    headerGet (headerSet hs m v) n = headerGet hs n := by
  by_cases h : headerHas hs m = true
  · simp [headerSet, h, headerGet_map_other hs n m v hnm]
  · have h2 : headerHas hs m = false := by simpa using h
    simp [headerSet, h2, headerGet_append_other hs n m v hnm]

theorem headerHas_of_headerGet (hs : HeaderMap) (n v : String)
    (h : headerGet hs n = some v) : headerHas hs n = true := by
  induction hs with
  | nil => simp [headerGet] at h
  | cons p t ih =>
    by_cases hp : headerMatches n p = true
    · simp [headerHas, hp]
    · simp [headerGet, hp] at h
      simp [headerHas, hp, ih h]

theorem redirectToLogin_eq (l : String) : redirectToLogin l = "/login" := by
  by_cases h : l = "/login" <;> simp [redirectToLogin, h]

theorem refresh_error_clears {st : Store} {now : Int} {b h : FetchResult} {e : ApiErr}
    (hrt : jsTruthy st.refresh_token = true)
    (herr : (refreshTokenEndpoint st now b h).result = .error e) :
    (refreshTokenEndpoint st now b h).store = clearTokens st := by
  rcases hres : refreshTryBody st now b h with ⟨r, ha⟩
  cases r with
  | ok p =>
    exfalso
    rcases p with ⟨env, st1⟩
    simp [refreshTokenEndpoint, hrt, hres] at herr
  | error e2 =>
    simp [refreshTokenEndpoint, hrt, hres]

theorem apiClientSend_firstHeaders (inp : DispatchInput) (retryCount rc : Nat) :
    (apiClientSend inp retryCount rc).firstHeaders
      = some (buildFirstHeaders inp.headers inp.store) := by
  unfold apiClientSend
  cases hf : inp.firstRes with
  | netErr => rfl
  | ok r =>
    simp only
    split
    · split
      · rcases hac : awaitCoordinatedRefresh inp with ⟨res, st1, k⟩
        cases res with
        | ok env => cases hr : inp.retryRes <;> simp [hac, hr]
        | error e => simp [hac]
      · rfl
    · rfl

/-! ## Claims -/

/-- C1: the claim states that N concurrent dispatches with an expired stored
token cause exactly one network call to the refresh endpoint, every caller
sharing the one outcome. It fails on the code: the proactive branch of
`apiClient` tests the module-level `isRefreshing` flag but never sets it, so
two dispatches interleaved at their first suspension point each start their
own refresh. Here: from a fully populated, expired credential record
(established by the third conjunct), running both tasks to their first await
makes two refresh-endpoint fetches, and completing the run leaves the two
callers holding the two distinct token pairs the two refreshes minted. -/
theorem c1_concurrent_proactive_double_refresh :
    (runSched c1Init [0, 1]).refreshFetches = 2
  ∧ (runSched c1Init [0, 1, 0, 0, 1, 1]).tasks
      = [TaskPC.finished (some "Bearer tok1"), TaskPC.finished (some "Bearer tok2")]
  ∧ isTokenExpired c1Init.store c1Init.now = true := by
  refine ⟨by decide, by decide, by decide⟩

/-- Fully populated credential record used to exercise the expiry boundary:
issued at millisecond 0 with a TTL of 3600 seconds. -/
def c3Store : Store :=
  ⟨some "a", some "r", some "Bearer", some "3600", some "86400", some "0"⟩

/-- C3 counterexample: the claim says a stored `expires_in` that is not a
valid integer string makes `isTokenExpired` return true. On the code,
`parseInt("abc")` is NaN, the comparison with NaN is false, and the function
returns false — long after any plausible expiry instant. -/
theorem c3_unparseable_cex :
    isTokenExpired ⟨some "a", some "r", some "Bearer", some "abc", some "86400", some "0"⟩
      999999999 = false := by
  decide

/-- C3 amended: `isTokenExpired` returns true whenever `expires_in` or the
issue timestamp is missing or empty; when both parse (in the `parseInt`
sense: an integer prefix), it returns true iff now ≥ issued + TTL·1000,
boundary included; but when a stored value is present and has no integer
prefix (`parseInt` yields NaN), it returns false, not true. -/
theorem c3_expiry_amended (st : Store) (now : Int) :
    (jsTruthy st.expires_in = false ∨ jsTruthy st.token_timestamp = false →
        isTokenExpired st now = true)
  ∧ (∀ e t, jsTruthy st.expires_in = true → jsTruthy st.token_timestamp = true →
        jsParseInt (st.expires_in.getD "") = some e →
        jsParseInt (st.token_timestamp.getD "") = some t →
        (isTokenExpired st now = true ↔ t + e * 1000 ≤ now))
  ∧ (jsTruthy st.expires_in = true → jsTruthy st.token_timestamp = true →
        jsParseInt (st.expires_in.getD "") = none ∨
          jsParseInt (st.token_timestamp.getD "") = none →
        isTokenExpired st now = false) := by
  refine ⟨?_, ?_, ?_⟩
  · rintro (h | h) <;> simp [isTokenExpired, h]
  · intro e t h1 h2 he ht
    simp [isTokenExpired, h1, h2, he, ht]
  · intro h1 h2 hn
    rcases hn with hn | hn
    · cases ht : jsParseInt (st.token_timestamp.getD "") <;>
        simp [isTokenExpired, h1, h2, hn, ht]
    · simp [isTokenExpired, h1, h2, hn]

/-- C3 witness: at the boundary instant 3600000 the token counts as expired,
one millisecond earlier it does not. -/
theorem c3_expiry_amended_witness :
    isTokenExpired c3Store 3600000 = true ∧ isTokenExpired c3Store 3599999 = false := by
  constructor
  · exact ((c3_expiry_amended c3Store 3600000).2.1 3600 0 rfl rfl rfl rfl).mpr (by decide)
  · cases hb : isTokenExpired c3Store 3599999
    · rfl
    · exact absurd (((c3_expiry_amended c3Store 3599999).2.1 3600 0 rfl rfl rfl rfl).mp hb)
        (by decide)

/-- C4 counterexample: the claim says a record missing any of the six fields
makes `isTokenExpired` return true. On the code the evaluator reads only
`expires_in` and `token_timestamp`: with the access token, refresh token and
token type all absent but a future expiry stored, it returns false. -/
theorem c4_missing_fields_cex :
    (Store.mk none none none (some "3600") (some "86400") (some "1000")).access_token = none
  ∧ isTokenExpired (Store.mk none none none (some "3600") (some "86400") (some "1000"))
      1000 = false := by
  exact ⟨rfl, by decide⟩

/-- C4 amended: `isTokenExpired` returns true when `expires_in` or the issue
timestamp is missing (or empty), and it depends on nothing else: replacing
the other four fields arbitrarily never changes its value, so a record
missing only those fields can still report not-expired. -/
theorem c4_partial_record_amended (st : Store) (now : Int) (a r ty re : Option String) :
    (jsTruthy st.expires_in = false ∨ jsTruthy st.token_timestamp = false →
        isTokenExpired st now = true)
  ∧ isTokenExpired
      { st with access_token := a, refresh_token := r, token_type := ty,
                refresh_expires_in := re } now
      = isTokenExpired st now := by
  refine ⟨?_, rfl⟩
  rintro (h | h) <;> simp [isTokenExpired, h]

/-- C4 witness: a record with every field set but `expires_in` empty counts
as expired. -/
theorem c4_partial_record_amended_witness :
    isTokenExpired
      (Store.mk (some "x") (some "y") (some "Bearer") none (some "86400") (some "0"))
      0 = true :=
  (c4_partial_record_amended
      (Store.mk (some "x") (some "y") (some "Bearer") none (some "86400") (some "0"))
      0 none none none none).1 (Or.inl rfl)

/-- Store used by the C5 counterexample: an access token is still present
but the refresh token is absent. -/
def c5Store : Store :=
  ⟨some "A", none, some "Bearer", some "3600", some "86400", some "0"⟩

/-- C5 counterexample: the claim includes the no-refresh-token case among
the failure paths that clear the whole store. On the code that guard throws
BEFORE the `try` block, so the clearing `catch` never runs: the typed error
propagates while the stored access token survives. -/
theorem c5_no_refresh_token_uncleared_cex :
    (refreshTokenEndpoint c5Store 0 .netErr .netErr).result
      = .error ⟨"No refresh token available. Please login again.", some 401⟩
  ∧ (refreshTokenEndpoint c5Store 0 .netErr .netErr).store.access_token = some "A" := by
  exact ⟨rfl, rfl⟩

/-- C5 amended: every failure path inside the `try` block of the refresh
operation — network errors, empty or malformed bodies, HTTP error statuses
after both transmission modes — leaves the store fully cleared before the
typed error propagates; the no-refresh-token failure, raised before the
`try`, performs no clearing and leaves the store untouched. -/
theorem c5_failure_clears_amended (st : Store) (now : Int) (b h : FetchResult) :
    (∀ e, jsTruthy st.refresh_token = true →
        (refreshTokenEndpoint st now b h).result = .error e →
        (refreshTokenEndpoint st now b h).store = clearTokens st)
  ∧ (jsTruthy st.refresh_token = false →
        (refreshTokenEndpoint st now b h).store = st) := by
  constructor
  · intro e hrt herr
    exact refresh_error_clears hrt herr
  · intro hrt
    simp [refreshTokenEndpoint, hrt]

/-- C5 witness: a network failure of the body-mode fetch clears the store of
`c3Store`. -/
theorem c5_failure_clears_amended_witness :
    (refreshTokenEndpoint c3Store 0 .netErr .netErr).store = clearTokens c3Store :=
  (c5_failure_clears_amended c3Store 0 .netErr .netErr).1 ⟨netErrMsg, some 0⟩ rfl rfl

/-- On a parsed body-mode response with status 401, every continuation of
`refreshTryBody` marks the header-mode fallback as attempted. -/
theorem refreshTryBody_headerAttempt (st : Store) (now : Int) (env : Envelope)
    (hr : FetchResult) :
    (refreshTryBody st now (.resp 401 (.parsed env)) hr).2 = true := by
  have h401 : responseOk 401 = false := by decide
  unfold refreshTryBody
  cases hr with
  | netErr => simp [readBody, h401]
  | resp s b =>
    cases b with
    | empty => simp [readBody, h401]
    | malformed => simp [readBody, h401]
    | parsed henv =>
      simp only [readBody, h401, Bool.not_false, Bool.true_or, if_true]
      split
      · rfl
      · cases henv.data <;> rfl

/-- C6: if the body-mode refresh response parses with status exactly 401,
the header-mode fallback is attempted whatever its network oracle yields;
and when the header-mode response is successful (2xx and `success`), its
token pair is persisted via `saveTokens` and its envelope is returned. -/
theorem c6_header_mode_fallback (st : Store) (now : Int) (env : Envelope)
    (hstatus : Nat) (henv : Envelope) (d : TokenData) (hr : FetchResult)
    (hrt : jsTruthy st.refresh_token = true)
    (hok : responseOk hstatus = true) (hsucc : henv.success = true)
    (hdata : henv.data = some d) :
    (refreshTokenEndpoint st now (.resp 401 (.parsed env)) hr).headerAttempt = true
  ∧ (refreshTokenEndpoint st now (.resp 401 (.parsed env))
        (.resp hstatus (.parsed henv))).result = .ok henv
  ∧ (refreshTokenEndpoint st now (.resp 401 (.parsed env))
        (.resp hstatus (.parsed henv))).store = saveTokens st d now := by
  have h401 : responseOk 401 = false := by decide
  refine ⟨?_, ?_, ?_⟩
  · have hha := refreshTryBody_headerAttempt st now env hr
    rcases hres : refreshTryBody st now (.resp 401 (.parsed env)) hr with ⟨r, ha⟩
    rw [hres] at hha
    cases r with
    | ok p =>
      rcases p with ⟨env2, st2⟩
      simp [refreshTokenEndpoint, hrt, hres]
      exact hha
    | error e2 =>
      simp [refreshTokenEndpoint, hrt, hres]
      exact hha
  · simp [refreshTokenEndpoint, refreshTryBody, readBody, hrt, h401, hok, hsucc, hdata]
  · simp [refreshTokenEndpoint, refreshTryBody, readBody, hrt, h401, hok, hsucc, hdata]

/-- C6 witness: a concrete 401 body-mode response followed by a successful
header-mode response persists and returns the new pair. -/
theorem c6_header_mode_fallback_witness :
    (refreshTokenEndpoint c3Store 50 (.resp 401 (.parsed ⟨401, false, "expired", none⟩))
        (.resp 200 (.parsed ⟨200, true, "ok", some ⟨"na", "nr", "Bearer", 3600, 86400⟩⟩))).result
      = .ok ⟨200, true, "ok", some ⟨"na", "nr", "Bearer", 3600, 86400⟩⟩
  ∧ (refreshTokenEndpoint c3Store 50 (.resp 401 (.parsed ⟨401, false, "expired", none⟩))
        (.resp 200 (.parsed ⟨200, true, "ok", some ⟨"na", "nr", "Bearer", 3600, 86400⟩⟩))).store
      = saveTokens c3Store ⟨"na", "nr", "Bearer", 3600, 86400⟩ 50 := by
  have h := c6_header_mode_fallback c3Store 50 ⟨401, false, "expired", none⟩ 200
    ⟨200, true, "ok", some ⟨"na", "nr", "Bearer", 3600, 86400⟩⟩
    ⟨"na", "nr", "Bearer", 3600, 86400⟩
    (.resp 200 (.parsed ⟨200, true, "ok", some ⟨"na", "nr", "Bearer", 3600, 86400⟩⟩))
    rfl (by decide) rfl rfl
  exact ⟨h.2.1, h.2.2⟩

/-- C7: when the proactive refresh (expired token, refresh token present,
no refresh in flight) fails, the dispatch ends with that error, the store is
cleared (by the refresh operation itself), the location is the login view,
and the original request is never issued. -/
theorem c7_proactive_failure_terminates (inp : DispatchInput) (e : ApiErr)
    (hexp : isTokenExpired inp.store inp.now = true)
    (hrt : jsTruthy inp.store.refresh_token = true)
    (hnr : inp.isRefreshing = false)
    (herr : (refreshTokenEndpoint inp.store inp.now
        inp.refreshBodyRes inp.refreshHeaderRes).result = .error e) :
    (apiClient inp 0).result = .error e
  ∧ (apiClient inp 0).store = clearTokens inp.store
  ∧ (apiClient inp 0).location = "/login"
  ∧ (apiClient inp 0).originalSent = false
  ∧ (apiClient inp 0).refreshCalls = 1 := by
  have hclear := refresh_error_clears hrt herr
  refine ⟨?_, ?_, ?_, ?_, ?_⟩ <;>
    simp [apiClient, hexp, hrt, hnr, herr, hclear, redirectToLogin_eq]

/-- Input of the C7 witness: an expired record, a refresh token, a refresh
that fails with a parsed 500, and a network that would answer the original
request with 200 — which is never consulted. -/
def c7Inp : DispatchInput :=
  { headers := []
    store := ⟨some "A", some "R", some "Bearer", some "3600", some "86400", some "0"⟩
    isRefreshing := false, pending := .error ⟨"x", none⟩
    location := "/dashboard", now := 10000000
    firstRes := .ok ⟨200, 7⟩
    refreshBodyRes := .resp 500 (.parsed ⟨500, false, "boom", none⟩)
    refreshHeaderRes := .netErr
    retryRes := .ok ⟨200, 8⟩ }

/-- C7 witness: on `c7Inp` the error propagates, the store is cleared, the
location becomes the login view and no original request is sent. -/
theorem c7_proactive_failure_terminates_witness :
    (apiClient c7Inp 0).result = .error ⟨"boom", some 500⟩
  ∧ (apiClient c7Inp 0).store = clearTokens c7Inp.store
  ∧ (apiClient c7Inp 0).location = "/login"
  ∧ (apiClient c7Inp 0).originalSent = false
  ∧ (apiClient c7Inp 0).refreshCalls = 1 :=
  c7_proactive_failure_terminates c7Inp ⟨"boom", some 500⟩ (by decide) rfl rfl rfl

/-- C2: a dispatch whose first response is a 401, with a refresh token
stored and the refresh succeeding, re-issues the original request exactly
once and returns the retried response as-is — whatever its status — after
exactly one refresh; the structure of `apiClient` admits no second retry
(the retry is a plain fetch, not a recursive dispatch). -/
theorem c2_reactive_single_retry (inp : DispatchInput) (r1 r2 : Response) (env : Envelope)
    (hnotexp : isTokenExpired inp.store inp.now = false)
    (hfirst : inp.firstRes = .ok r1) (h401 : r1.status = 401)
    (hrt : jsTruthy inp.store.refresh_token = true)
    (hnr : inp.isRefreshing = false)
    (hrefresh : (refreshTokenEndpoint inp.store inp.now
        inp.refreshBodyRes inp.refreshHeaderRes).result = .ok env)
    (hretry : inp.retryRes = .ok r2) :
    (apiClient inp 0).result = .ok r2
  ∧ (apiClient inp 0).originalSent = true
  ∧ (apiClient inp 0).retrySent = true
  ∧ (apiClient inp 0).refreshCalls = 1 := by
  refine ⟨?_, ?_, ?_, ?_⟩ <;>
    simp [apiClient, apiClientSend, awaitCoordinatedRefresh, hnotexp, hfirst, h401,
      hrt, hnr, hrefresh, hretry]

/-- Input of the C2 and C10 witnesses: a valid (unexpired) record, a caller
supplying its own `Authorization` and `Content-Type`, a first response of
401, a successful refresh minting access token `newA`, and a retry response
that is itself another 401. -/
def c2Inp : DispatchInput :=
  { headers := [("Authorization", "Custom xyz"), ("Content-Type", "text/plain")]
    store := ⟨some "abc", some "R", some "Bearer", some "3600", some "86400",
              some "9999999999999"⟩
    isRefreshing := false, pending := .error ⟨"x", none⟩
    location := "/dashboard", now := 0
    firstRes := .ok ⟨401, 7⟩
    refreshBodyRes := .resp 200 (.parsed ⟨200, true, "ok",
      some ⟨"newA", "newR", "Bearer", 3600, 86400⟩⟩)
    refreshHeaderRes := .netErr
    retryRes := .ok ⟨401, 8⟩ }

/-- C2 witness: the retried response — itself a 401 — is returned as-is,
after exactly one refresh and one retry. -/
theorem c2_reactive_single_retry_witness :
    (apiClient c2Inp 0).result = .ok ⟨401, 8⟩
  ∧ (apiClient c2Inp 0).retrySent = true
  ∧ (apiClient c2Inp 0).refreshCalls = 1 := by
  have h := c2_reactive_single_retry c2Inp ⟨401, 7⟩ ⟨401, 8⟩
    ⟨200, true, "ok", some ⟨"newA", "newR", "Bearer", 3600, 86400⟩⟩
    (by decide) rfl rfl rfl rfl rfl rfl
  exact ⟨h.1, h.2.2.1, h.2.2.2⟩

theorem headerHas_map_set (hs : HeaderMap) (n m v : String) :
    headerHas (hs.map fun p => if headerMatches m p then (p.1, v) else p) n
      = headerHas hs n := by
  induction hs with
  | nil => rfl
  | cons p t ih =>
    by_cases hp : headerMatches m p = true
    · have h1 : headerMatches n (p.1, v) = headerMatches n p := rfl
      simp [headerHas, hp, h1, ih]
    · simp [headerHas, hp, ih]

theorem headerHas_append_other (hs : HeaderMap) (n m v : String)
    (hnm : ¬ lowerStr n = lowerStr m) :
    headerHas (hs ++ [(m, v)]) n = headerHas hs n := by
  induction hs with
  | nil =>
    simp [headerHas, headerMatches]
    exact fun hh => hnm hh.symm
  | cons p t ih =>
    simp [headerHas, ih]

theorem headerHas_headerSet_other (hs : HeaderMap) (n m v : String)
    (hnm : ¬ lowerStr n = lowerStr m) :
    headerHas (headerSet hs m v) n = headerHas hs n := by
  by_cases h : headerHas hs m = true
  · simp [headerSet, h, headerHas_map_set]
  · have h2 : headerHas hs m = false := by simpa using h
    simp [headerSet, h2, headerHas_append_other hs n m v hnm]

theorem lower_auth_ne_ct : ¬ lowerStr "Authorization" = lowerStr "Content-Type" := by
  decide

theorem buildFirst_auth_set (opts : HeaderMap) (st : Store)
    (ht : jsTruthy st.access_token = true)
    (hno : headerHas opts "Authorization" = false) :
    headerGet (buildFirstHeaders opts st) "Authorization"
      = some ("Bearer " ++ st.access_token.getD "") := by
  simp only [buildFirstHeaders, ht, hno, Bool.not_false, Bool.and_self, if_true]
  split
  · rw [headerGet_headerSet_other _ _ _ _ lower_auth_ne_ct]
    exact headerGet_headerSet_self opts "Authorization" _
  · exact headerGet_headerSet_self opts "Authorization" _

theorem buildFirst_auth_preserved (opts : HeaderMap) (st : Store) (v : String)
    (h : headerGet opts "Authorization" = some v) :
    headerGet (buildFirstHeaders opts st) "Authorization" = some v := by
  have hhas := headerHas_of_headerGet opts "Authorization" v h
  have hrw : ∀ (hs : HeaderMap) (w : String),
      headerGet (headerSet hs "Content-Type" w) "Authorization"
        = headerGet hs "Authorization" :=
    fun hs w => headerGet_headerSet_other hs "Authorization" "Content-Type" w lower_auth_ne_ct
  by_cases hct : headerHas opts "Content-Type" = true
  · simp [buildFirstHeaders, hhas, hct, h]
  · have hct2 : headerHas opts "Content-Type" = false := by simpa using hct
    simp [buildFirstHeaders, hhas, hct2, hrw, h]

theorem buildFirst_ct_default (opts : HeaderMap) (st : Store)
    (hct : headerHas opts "Content-Type" = false) :
    headerGet (buildFirstHeaders opts st) "Content-Type" = some "application/json" := by
  have hhasrw : ∀ (hs : HeaderMap) (w : String),
      headerHas (headerSet hs "Authorization" w) "Content-Type"
        = headerHas hs "Content-Type" :=
    fun hs w => headerHas_headerSet_other hs "Content-Type" "Authorization" w
      (fun hh => lower_auth_ne_ct hh.symm)
  by_cases hauth : (jsTruthy st.access_token && !(headerHas opts "Authorization")) = true
  · simp [buildFirstHeaders, hauth, hhasrw, hct, headerGet_headerSet_self]
  · have hauth2 : (jsTruthy st.access_token && !(headerHas opts "Authorization")) = false := by
      simpa using hauth
    simp [buildFirstHeaders, hauth2, hct, headerGet_headerSet_self]

theorem buildFirst_ct_preserved (opts : HeaderMap) (st : Store) (v : String)
    (h : headerGet opts "Content-Type" = some v) :
    headerGet (buildFirstHeaders opts st) "Content-Type" = some v := by
  have hhas := headerHas_of_headerGet opts "Content-Type" v h
  have hgetrw : ∀ (hs : HeaderMap) (w : String),
      headerGet (headerSet hs "Authorization" w) "Content-Type"
        = headerGet hs "Content-Type" :=
    fun hs w => headerGet_headerSet_other hs "Content-Type" "Authorization" w
      (fun hh => lower_auth_ne_ct hh.symm)
  have hhasrw : ∀ (hs : HeaderMap) (w : String),
      headerHas (headerSet hs "Authorization" w) "Content-Type"
        = headerHas hs "Content-Type" :=
    fun hs w => headerHas_headerSet_other hs "Content-Type" "Authorization" w
      (fun hh => lower_auth_ne_ct hh.symm)
  by_cases hauth : (jsTruthy st.access_token && !(headerHas opts "Authorization")) = true
  · simp [buildFirstHeaders, hauth, hhasrw, hgetrw, hhas, h]
  · have hauth2 : (jsTruthy st.access_token && !(headerHas opts "Authorization")) = false := by
      simpa using hauth
    simp [buildFirstHeaders, hauth2, hhas, h]

theorem buildRetry_auth_overwrites (opts : HeaderMap) (st : Store)
    (ht : jsTruthy st.access_token = true) :
    headerGet (buildRetryHeaders opts st) "Authorization"
      = some ("Bearer " ++ st.access_token.getD "") := by
  simp only [buildRetryHeaders, ht, if_true]
  split
  · rw [headerGet_headerSet_other _ _ _ _ lower_auth_ne_ct]
    exact headerGet_headerSet_self opts "Authorization" _
  · exact headerGet_headerSet_self opts "Authorization" _

theorem buildRetry_ct_preserved (opts : HeaderMap) (st : Store) (v : String)
    (h : headerGet opts "Content-Type" = some v) :
    headerGet (buildRetryHeaders opts st) "Content-Type" = some v := by
  have hhas := headerHas_of_headerGet opts "Content-Type" v h
  have hgetrw : ∀ (hs : HeaderMap) (w : String),
      headerGet (headerSet hs "Authorization" w) "Content-Type"
        = headerGet hs "Content-Type" :=
    fun hs w => headerGet_headerSet_other hs "Content-Type" "Authorization" w
      (fun hh => lower_auth_ne_ct hh.symm)
  have hhasrw : ∀ (hs : HeaderMap) (w : String),
      headerHas (headerSet hs "Authorization" w) "Content-Type"
        = headerHas hs "Content-Type" :=
    fun hs w => headerHas_headerSet_other hs "Content-Type" "Authorization" w
      (fun hh => lower_auth_ne_ct hh.symm)
  by_cases htok : jsTruthy st.access_token = true
  · simp [buildRetryHeaders, htok, hhasrw, hgetrw, hhas, h]
  · have htok2 : jsTruthy st.access_token = false := by simpa using htok
    simp [buildRetryHeaders, htok2, hhas, h]

theorem apiClient_firstHeaders (inp : DispatchInput)
    (hnotexp : isTokenExpired inp.store inp.now = false) :
    (apiClient inp 0).firstHeaders = some (buildFirstHeaders inp.headers inp.store) := by
  simp [apiClient, hnotexp, apiClientSend_firstHeaders]

/-- Input of the C8 counterexample: stored token type `MAC`, access token
`abc`, an unexpired record, no caller headers. -/
def c8Inp : DispatchInput :=
  { headers := []
    store := ⟨some "abc", some "R", some "MAC", some "3600", some "86400",
              some "9999999999999"⟩
    isRefreshing := false, pending := .error ⟨"x", none⟩
    location := "/dashboard", now := 0
    firstRes := .ok ⟨200, 7⟩
    refreshBodyRes := .netErr, refreshHeaderRes := .netErr
    retryRes := .ok ⟨200, 8⟩ }

/-- C8 counterexample: the claim says the first attempt carries
`Authorization: <token_type> <access_token>` using the STORED token type.
With token type `MAC` stored, the code still sends the literal scheme
`Bearer`: the header reads `Bearer abc`, not `MAC abc`. -/
theorem c8_scheme_not_token_type_cex :
    c8Inp.store.token_type = some "MAC"
  ∧ c8Inp.store.access_token = some "abc"
  ∧ headerGet ((apiClient c8Inp 0).firstHeaders.getD []) "Authorization"
      = some "Bearer abc"
  ∧ ¬ ("Bearer abc" : String) = "MAC" ++ " " ++ "abc" := by
  refine ⟨rfl, rfl, by decide, by decide⟩

/-- C8 amended: on the first attempt the dispatcher attaches
`Authorization: Bearer <access_token>` — the literal scheme `Bearer`, not
the stored token type — when an access token is stored and the caller did
not supply the header; it defaults `Content-Type` when absent; and it never
overwrites a caller-supplied header of either name. The final conjunct ties
the header construction to the dispatcher itself. -/
theorem c8_first_attempt_headers_amended (opts : HeaderMap) (st : Store) :
    (jsTruthy st.access_token = true → headerHas opts "Authorization" = false →
      headerGet (buildFirstHeaders opts st) "Authorization"
        = some ("Bearer " ++ st.access_token.getD ""))
  ∧ (∀ v, headerGet opts "Authorization" = some v →
      headerGet (buildFirstHeaders opts st) "Authorization" = some v)
  ∧ (headerHas opts "Content-Type" = false →
      headerGet (buildFirstHeaders opts st) "Content-Type" = some "application/json")
  ∧ (∀ v, headerGet opts "Content-Type" = some v →
      headerGet (buildFirstHeaders opts st) "Content-Type" = some v)
  ∧ (∀ inp : DispatchInput, isTokenExpired inp.store inp.now = false →
      (apiClient inp 0).firstHeaders = some (buildFirstHeaders inp.headers inp.store)) :=
  ⟨buildFirst_auth_set opts st, fun v => buildFirst_auth_preserved opts st v,
    buildFirst_ct_default opts st, fun v => buildFirst_ct_preserved opts st v,
    fun inp h => apiClient_firstHeaders inp h⟩

/-- C8 witness: on the counterexample store the attached header is
`Bearer abc`, and a caller-supplied `Authorization` is left alone. -/
theorem c8_first_attempt_headers_amended_witness :
    headerGet (buildFirstHeaders [] c8Inp.store) "Authorization"
      = some ("Bearer " ++ "abc")
  ∧ headerGet (buildFirstHeaders [("Authorization", "Custom xyz")] c8Inp.store)
      "Authorization" = some "Custom xyz" := by
  constructor
  · exact (c8_first_attempt_headers_amended [] c8Inp.store).1 (by decide) rfl
  · exact (c8_first_attempt_headers_amended [("Authorization", "Custom xyz")]
      c8Inp.store).2.1 "Custom xyz" (by decide)

/-- C9: for the endpoint wrappers, a parsed response is treated as failed —
a typed error carrying the transport status and the server message (when it
is nonempty) — iff the transport status is non-2xx or the envelope has
`success:false`; otherwise the envelope is returned unchanged. Shown for the
login and create-API-key wrappers, whose check blocks the other wrappers
repeat verbatim. -/
theorem c9_envelope_failure_iff (s : Nat) (env : Envelope) :
    (loginEnvelopeCheck s env = .ok env ↔ (responseOk s && env.success) = true)
  ∧ ((responseOk s && env.success) = false →
      ∃ e, loginEnvelopeCheck s env = .error e ∧ e.status = some s
        ∧ (¬ env.message = "" → e.message = env.message))
  ∧ (createApiKeyEnvelopeCheck s env = .ok env ↔ (responseOk s && env.success) = true)
  ∧ ((responseOk s && env.success) = false →
      ∃ e, createApiKeyEnvelopeCheck s env = .error e ∧ e.status = some s
        ∧ (¬ env.message = "" → e.message = env.message)) := by
  by_cases hok : responseOk s = true
  · by_cases hs : env.success = true
    · refine ⟨?_, ?_, ?_, ?_⟩ <;>
        simp [loginEnvelopeCheck, createApiKeyEnvelopeCheck, hok, hs]
    · have hs2 : env.success = false := by simpa using hs
      refine ⟨?_, ?_, ?_, ?_⟩
      · simp [loginEnvelopeCheck, hok, hs2]
      · intro hfail
        refine ⟨⟨jsOr env.message "Login failed", some s⟩, ?_, rfl, ?_⟩
        · simp [loginEnvelopeCheck, hok, hs2]
        · intro hm
          simp [jsOr, hm]
      · simp [createApiKeyEnvelopeCheck, hok, hs2]
      · intro hfail
        refine ⟨⟨jsOr env.message "Failed to create API key", some s⟩, ?_, rfl, ?_⟩
        · simp [createApiKeyEnvelopeCheck, hok, hs2]
        · intro hm
          simp [jsOr, hm]
  · have hok2 : responseOk s = false := by simpa using hok
    refine ⟨?_, ?_, ?_, ?_⟩
    · simp [loginEnvelopeCheck, hok2]
    · intro hfail
      refine ⟨⟨jsOr env.message ("Login failed with status " ++ toString s), some s⟩,
        ?_, rfl, ?_⟩
      · simp [loginEnvelopeCheck, hok2]
      · intro hm
        simp [jsOr, hm]
    · simp [createApiKeyEnvelopeCheck, hok2]
    · intro hfail
      refine ⟨⟨jsOr env.message
          ("Failed to create API key (status " ++ toString s ++ ")"), some s⟩,
        ?_, rfl, ?_⟩
      · simp [createApiKeyEnvelopeCheck, hok2]
      · intro hm
        simp [jsOr, hm]

/-- C9 witness: a 2xx envelope with `success:true` passes through unchanged;
the same envelope under status 500 is rejected. -/
theorem c9_envelope_failure_iff_witness :
    loginEnvelopeCheck 200 ⟨200, true, "ok", none⟩ = .ok ⟨200, true, "ok", none⟩
  ∧ ¬ loginEnvelopeCheck 500 ⟨500, true, "boom", none⟩
      = .ok ⟨500, true, "boom", none⟩ := by
  constructor
  · exact ((c9_envelope_failure_iff 200 ⟨200, true, "ok", none⟩).1).mpr (by decide)
  · intro hh
    exact absurd (((c9_envelope_failure_iff 500 ⟨500, true, "boom", none⟩).1).mp hh)
      (by decide)

/-- In the reactive-retry scenario (first response 401, refresh succeeds,
retry answered), the retry headers recorded by the dispatch are exactly the
retry header construction applied to the refreshed store. -/
theorem apiClient_retryHeaders (inp : DispatchInput) (r1 r2 : Response) (env : Envelope)
    (hnotexp : isTokenExpired inp.store inp.now = false)
    (hfirst : inp.firstRes = .ok r1) (h401 : r1.status = 401)
    (hrt : jsTruthy inp.store.refresh_token = true)
    (hnr : inp.isRefreshing = false)
    (hrefresh : (refreshTokenEndpoint inp.store inp.now
        inp.refreshBodyRes inp.refreshHeaderRes).result = .ok env)
    (hretry : inp.retryRes = .ok r2) :
    (apiClient inp 0).retryHeaders
      = some (buildRetryHeaders inp.headers
          (refreshTokenEndpoint inp.store inp.now
            inp.refreshBodyRes inp.refreshHeaderRes).store) := by
  simp [apiClient, apiClientSend, awaitCoordinatedRefresh, hnotexp, hfirst, h401,
    hrt, hnr, hrefresh, hretry]

/-- C10: on the reactive retry the dispatcher sets `Authorization` to the
freshly refreshed access token, overwriting any caller-supplied value —
unlike the first attempt, which preserves a caller-supplied `Authorization`
— while a caller-supplied `Content-Type` is still preserved on the retry. -/
theorem c10_retry_overwrites_authorization (inp : DispatchInput) (r1 r2 : Response)
    (env : Envelope) (a : String)
    (hnotexp : isTokenExpired inp.store inp.now = false)
    (hfirst : inp.firstRes = .ok r1) (h401 : r1.status = 401)
    (hrt : jsTruthy inp.store.refresh_token = true)
    (hnr : inp.isRefreshing = false)
    (hrefresh : (refreshTokenEndpoint inp.store inp.now
        inp.refreshBodyRes inp.refreshHeaderRes).result = .ok env)
    (hstok : (refreshTokenEndpoint inp.store inp.now
        inp.refreshBodyRes inp.refreshHeaderRes).store.access_token = some a)
    (hane : ¬ a = "")
    (hretry : inp.retryRes = .ok r2) :
    headerGet ((apiClient inp 0).retryHeaders.getD []) "Authorization"
      = some ("Bearer " ++ a)
  ∧ (∀ v, headerGet inp.headers "Content-Type" = some v →
      headerGet ((apiClient inp 0).retryHeaders.getD []) "Content-Type" = some v)
  ∧ (∀ v, headerGet inp.headers "Authorization" = some v →
      headerGet ((apiClient inp 0).firstHeaders.getD []) "Authorization" = some v) := by
  have hret := apiClient_retryHeaders inp r1 r2 env hnotexp hfirst h401 hrt hnr
    hrefresh hretry
  have hfh := apiClient_firstHeaders inp hnotexp
  have htok : jsTruthy (refreshTokenEndpoint inp.store inp.now
      inp.refreshBodyRes inp.refreshHeaderRes).store.access_token = true := by
    rw [hstok]
    simp [jsTruthy, hane]
  refine ⟨?_, ?_, ?_⟩
  · rw [hret]
    have h2 := buildRetry_auth_overwrites inp.headers
      (refreshTokenEndpoint inp.store inp.now
        inp.refreshBodyRes inp.refreshHeaderRes).store htok
    rw [hstok] at h2
    simpa using h2
  · intro v hv
    rw [hret]
    simpa using buildRetry_ct_preserved inp.headers _ v hv
  · intro v hv
    rw [hfh]
    simpa using buildFirst_auth_preserved inp.headers inp.store v hv

/-- C10 witness: on `c2Inp` (caller supplies both headers) the retry sends
`Bearer newA` instead of the caller value, keeps the caller
`Content-Type`, and the first attempt kept the caller `Authorization`. -/
theorem c10_retry_overwrites_authorization_witness :
    headerGet ((apiClient c2Inp 0).retryHeaders.getD []) "Authorization"
      = some ("Bearer " ++ "newA")
  ∧ headerGet ((apiClient c2Inp 0).retryHeaders.getD []) "Content-Type"
      = some "text/plain"
  ∧ headerGet ((apiClient c2Inp 0).firstHeaders.getD []) "Authorization"
      = some "Custom xyz" := by
  have h := c10_retry_overwrites_authorization c2Inp ⟨401, 7⟩ ⟨401, 8⟩
    ⟨200, true, "ok", some ⟨"newA", "newR", "Bearer", 3600, 86400⟩⟩ "newA"
    (by decide) rfl rfl rfl rfl rfl rfl (by decide) rfl
  exact ⟨h.1, h.2.1 "text/plain" (by decide), h.2.2 "Custom xyz" (by decide)⟩

end Zcoded
